import Mathlib

/-!
Verification of the updatehub firmware-update agent (OSSystems/updatehub).

The repository carries two variants of the update state machine:

* the later, actor-based variant under `updatehub/src/` (states/mod.rs,
  states/download.rs, states/direct_download.rs, client/mod.rs), and
* an earlier, synchronous variant under `src/` (states/poll.rs,
  states/install.rs, states/probe.rs, states/download.rs, client/mod.rs).

Both are embedded below.  Definitions are translated from the source
files; components of the repository whose source file is absent from the
tree (the runtime-settings store, the object-status classifier, the
per-state preemption overrides and the actor request handlers) are
modelled from the specification and marked as such in their doc comments.

Machine integers (u64 lengths, i64 seconds) are modelled as `Nat`/`Int`;
`u64::saturating_sub` is truncated `Nat` subtraction, and the unchecked
`u64` subtraction of the legacy client is modelled with an explicit
underflow check returning `none` where Rust would panic.
-/

namespace UpdateHub

/-! ## Bytes and the download directory -/

/-- A file's content, as a list of bytes. -/
abbrev Bytes := List Nat

/-- The download directory: an association of file names to contents. -/
abbrev FS := List (String × Bytes)

/-- Look a file up in the download directory. -/
def FS.lookup (dir : FS) (name : String) : Option Bytes :=
  match dir with
  | [] => none
  | e :: es => if e.1 = name then some e.2 else FS.lookup es name

/-- Delete a file from the download directory (`fs::remove_file`). -/
def FS.removeFile (dir : FS) (name : String) : FS :=
  dir.filter (fun e => decide (e.1 ≠ name))

/-- Replace (or create) a file's content in the download directory. -/
def FS.write (dir : FS) (name : String) (content : Bytes) : FS :=
  (name, content) :: dir.removeFile name

/-! ## Update package model -/

/-- One object of an update package: its content address and expected
size.  Mode-specific installer fields are irrelevant to the claims. -/
structure UhObject where
  sha256sum : String
  size : Nat
deriving DecidableEq, Repr

/-- An installation set (bank) index, 0 or 1. -/
abbrev InstallationSet := Fin 2

/-- The parsed probe response: package uid and the two per-bank object
lists. -/
structure UpdatePackage where
  packageUid : String
  objects0 : List UhObject
  objects1 : List UhObject
deriving DecidableEq, Repr

/-- `UpdatePackage::objects(installation_set)`: the object list of the
given bank. -/
def UpdatePackage.objects (pkg : UpdatePackage) (set : InstallationSet) : List UhObject :=
  if set = 0 then pkg.objects0 else pkg.objects1

/-! ## Object status

Modelled from the spec: the per-object status classifier (§4.4 of the
spec; the `object/info.rs` source is absent from the tree).  The sha256
function is kept abstract as a parameter `hash`. -/

/-- Status of an object's file in the download directory. -/
inductive ObjectStatus
  | missing
  | incomplete
  | corrupted
  | ready
deriving DecidableEq, Repr

/-- Modelled from the spec: classify object `o` against directory `dir`
(§4.4): absent file is Missing; shorter than expected is Incomplete;
longer is Corrupted; expected length with a sha mismatch is Corrupted;
otherwise Ready. -/
def objectStatus (hash : Bytes → String) (dir : FS) (o : UhObject) : ObjectStatus :=
  match dir.lookup o.sha256sum with
  | none => .missing
  | some c =>
    if c.length < o.size then .incomplete
    else if c.length > o.size then .corrupted
    else if hash c = o.sha256sum then .ready
    else .corrupted

/-- Modelled from the spec: `UpdatePackage::filter_objects` keeps the
objects of the given bank whose current status equals `st`. -/
def UpdatePackage.filterObjects (hash : Bytes → String) (pkg : UpdatePackage) (dir : FS)
    (set : InstallationSet) (st : ObjectStatus) : List UhObject :=
  (pkg.objects set).filter (fun o => decide (objectStatus hash dir o = st))

/-! ## HTTP model -/

/-- An HTTP response: status code and body. -/
structure HttpResponse where
  status : Nat
  body : Bytes
deriving DecidableEq, Repr

/-- `StatusCode::is_success()`: 2xx codes. -/
def statusIsSuccess (code : Nat) : Bool := 200 ≤ code && code < 300

/-- Outcome of sending a request: a response, or a transport failure
(`attohttpc`/`reqwest` error before any status is available). -/
inductive HttpResult
  | response (r : HttpResponse)
  | transportError
deriving DecidableEq, Repr

/-- The observable part of an object GET built by the cloud client:
which object is requested and the byte offset of the `Range` header, if
one is attached. -/
structure DownloadRequest where
  object : String
  rangeStart : Option Nat
deriving DecidableEq, Repr

/-- The textual form of the range header: `format!("bytes={}-", k)`. -/
def rangeHeader (k : Nat) : String := "bytes=" ++ toString k ++ "-"

/-- Errors of the cloud client (`client::Error`). -/
inductive ClientError
  | invalidStatusResponse (status : Nat)
  | transport
deriving DecidableEq, Repr

/-! ## Cloud client: object download

From `updatehub/src/client/mod.rs`, lines 151-185 (`Api::download_object`
of the actor-based variant). -/

/-- The request `download_object` builds: if a file named `object`
already exists in `dir`, a `Range: bytes={len.saturating_sub(1)}-`
header is attached.  `u64::saturating_sub` is truncated `Nat`
subtraction. -/
def buildDownloadRequest (dir : FS) (object : String) : DownloadRequest :=
  { object := object, rangeStart := (dir.lookup object).map (fun c => c.length - 1) }

/-- `Api::download_object` (actor-based variant): send the GET with the
optional range header, open the destination in create+append mode, and
append the body on a 2xx status; other statuses are
`InvalidStatusResponse` errors and transport failures are client errors.
(The empty file that create+append leaves behind when the request then
fails is not observed by any state.) -/
def Api.downloadObject (server : DownloadRequest → HttpResult) (dir : FS) (object : String) :
    Except ClientError FS :=
  let req := buildDownloadRequest dir object
  let existing := (dir.lookup object).getD []
  match server req with
  | .transportError => .error .transport
  | .response r =>
    if statusIsSuccess r.status then .ok (dir.write object (existing ++ r.body))
    else .error (.invalidStatusResponse r.status)

/-- From `src/client/mod.rs`, lines 108-113 (legacy variant): the range
offset is the unchecked `u64` subtraction `file.metadata()?.len() - 1`,
which panics on underflow; the panic is modelled as `none`. -/
def legacyRangeStart (len : Nat) : Option Nat :=
  if len = 0 then none else some (len - 1)

/-- A range-honouring server over a fixed full object content: with no
range header it serves everything, with `bytes=k-` it serves the bytes
from offset `k` on. -/
def mockRangeServer (full : Bytes) : DownloadRequest → HttpResult :=
  fun req =>
    match req.rangeStart with
    | none => .response { status := 200, body := full }
    | some k => .response { status := 206, body := full.drop k }

/-! ## The actor-based state machine (`updatehub/src/states/`) -/

/-- `machine::StepTransition`: how the stepper advances after a
transition. -/
inductive StepTransition
  | immediate
  | delayed (seconds : Int)
  | never
deriving DecidableEq, Repr

/-- `TransitionError` (`updatehub/src/states/mod.rs` lines 43-80, plus
the `InvalidRequest` kind used by `direct_download.rs`); only the kinds
the claims exercise are carried. -/
inductive TransitionError
  | objectsNotReady
  | incompatibleHardware
  | invalidRequest
  | client (e : ClientError)
deriving DecidableEq, Repr

/-- The `Display` form of a transition error, used in error reports. -/
def TransitionError.message : TransitionError → String
  | .objectsNotReady => "not all objects are ready for use"
  | .incompatibleHardware => "incompatible hardware"
  | .invalidRequest => "invalid request"
  | .client _ => "client error"

/-- The `State` enum of the actor-based variant
(`updatehub/src/states/mod.rs` lines 175-189), with the payload each
arm owns where a claim observes it. -/
inductive NState
  | park
  | entryPoint
  | poll
  | probe (serverAddress : Option String)
  | validation
  | prepareDownload
  | download (pkg : UpdatePackage)
  | install (pkg : UpdatePackage)
  | reboot (pkg : UpdatePackage)
  | directDownload (url : String)
  | prepareLocalInstall (updateFile : String)
  | error
deriving DecidableEq, Repr

/-- The per-state `name()` implementations.  `download` and
`direct_download` are from their source files; the rest are modelled
from the spec (their state files are absent from the tree). -/
def NState.name : NState → String
  | .park => "park"
  | .entryPoint => "entry_point"
  | .poll => "poll"
  | .probe _ => "probe"
  | .validation => "validation"
  | .prepareDownload => "prepare_download"
  | .download _ => "download"
  | .install _ => "install"
  | .reboot _ => "reboot"
  | .directDownload _ => "direct_download"
  | .prepareLocalInstall _ => "prepare_local_install"
  | .error => "error"

/-- Modelled from the spec: the per-state `is_preemptive_state`
overrides (the files of the preemptible states are absent from the
tree).  Per the state table of §4.1, Park, EntryPoint, Poll, Probe,
PrepareDownload, Download and DirectDownload are preemptible;
Validation, Install, Reboot, PrepareLocalInstall and Error are not. -/
def NState.innerIsPreemptiveState : NState → Bool
  | .park => true
  | .entryPoint => true
  | .poll => true
  | .probe _ => true
  | .prepareDownload => true
  | .download _ => true
  | .directDownload _ => true
  | _ => false

/-- Modelled from the spec: the per-state `is_handling_download`
overrides.  Download is the only state handling a download (§4.1);
`states/download.rs` accepts the abort request accordingly. -/
def NState.innerIsHandlingDownload : NState → Bool
  | .download _ => true
  | _ => false

/-- `StateChangeImpl for State`, `updatehub/src/states/mod.rs` lines
228-230: dispatch `is_handling_download` to the inner state. -/
def NState.isHandlingDownload (s : NState) : Bool :=
  s.innerIsHandlingDownload

/-- `StateChangeImpl for State`, `updatehub/src/states/mod.rs` lines
232-234, verbatim: `is_preemptive_state` is dispatched to the inner
state's `is_handling_download` (not to its `is_preemptive_state`). -/
def NState.isPreemptiveState (s : NState) : Bool :=
  s.innerIsHandlingDownload

/-- The reply of the actor to an external `Probe` request. -/
inductive ProbeRequestResponse
  | requestAccepted (newStateName : String)
  | invalidState (currentStateName : String)
deriving DecidableEq, Repr

/-- Modelled from the spec: the stepper's handler for an external
`Probe(server_override)` request (§4.2; the actor source is absent from
the tree): if the current state is preemptible — as computed by
`State::is_preemptive_state` above — replace it with
`Probe{server_address}` and answer `RequestAccepted(new_state_name)`,
otherwise answer `InvalidState(current_state_name)`. -/
def handleProbeRequest (s : NState) (serverOverride : Option String) :
    ProbeRequestResponse × NState :=
  if s.isPreemptiveState then
    (.requestAccepted (NState.probe serverOverride).name, .probe serverOverride)
  else
    (.invalidState s.name, s)

/-! ## Progress-reporting wrapper

From `updatehub/src/states/mod.rs`, lines 111-157
(`ProgressReporter::handle_and_report_progress`): wrap a transition in
an enter report, a leave report on success, and an error report on
failure.  `report` is the POST to `{server}/report`; it returns whether
the POST succeeded.  Each failed POST is logged as a warning.  The
wrapped transition's result is the value of `handle()`, given here as
`handleResult`. -/

/-- The report POST: arguments are state name, previous state, error
message and current log; the result tells whether the POST succeeded. -/
abbrev ReportFn := String → Option String → Option String → Option String → Bool

/-- `handle_and_report_progress`, returning the wrapper's result
together with the warnings logged. -/
def handleAndReportProgress (report : ReportFn) (enterState leaveState : String)
    (handleResult : Except TransitionError (NState × StepTransition)) (memoryLog : String) :
    Except TransitionError (NState × StepTransition) × List String :=
  let warnEnter := if report enterState none none none then [] else ["report failed"]
  match handleResult with
  | .ok st =>
    let warnLeave := if report leaveState none none none then [] else ["report failed"]
    (.ok st, warnEnter ++ warnLeave)
  | .error e =>
    let warnError :=
      if report "error" (some enterState) (some e.message) (some memoryLog) then []
      else ["report failed"]
    (.error e, warnEnter ++ warnError)

/-! ## DirectDownload

From `updatehub/src/states/direct_download.rs`, lines 23-44. -/

/-- `State<DirectDownload>::handle`: fetch the user-supplied URL.  A
transport-level failure is an `InvalidRequest` error.  Otherwise, when
the status is 2xx the body is appended to `fetched_pkg` (opened in
create+append mode); for any other status nothing is written.  In both
response cases the state moves to `PrepareLocalInstall{update_file}`
with an Immediate step. -/
def directDownloadHandle (response : HttpResult) (dir : FS) :
    Except TransitionError ((NState × StepTransition) × FS) :=
  match response with
  | .transportError => .error .invalidRequest
  | .response r =>
    let dir2 :=
      if statusIsSuccess r.status then
        dir.write "fetched_pkg" (((dir.lookup "fetched_pkg").getD []) ++ r.body)
      else dir
    .ok ((.prepareLocalInstall "fetched_pkg", .immediate), dir2)

/-! ## Download

From `updatehub/src/states/download.rs`, lines 53-122
(`State<Download>::handle`); the same prune/fetch/check pipeline appears
in `src/states/download.rs` lines 28-86 of the legacy variant. -/

/-- Prune leftovers: walk the download directory and delete every file
whose name is not the sha256sum of some object of the inactive bank. -/
def pruneLeftovers (pkg : UpdatePackage) (set : InstallationSet) (dir : FS) : FS :=
  dir.filter (fun e => ((pkg.objects set).map UhObject.sha256sum).contains e.1)

/-- Prune corrupted files: delete the file of every object currently
classified Corrupted. -/
def pruneCorrupted (hash : Bytes → String) (pkg : UpdatePackage) (set : InstallationSet)
    (dir : FS) : FS :=
  (pkg.filterObjects hash dir set .corrupted).foldl
    (fun d o => d.removeFile o.sha256sum) dir

/-- The download directory after both prune phases. -/
def downloadPruned (hash : Bytes → String) (pkg : UpdatePackage) (set : InstallationSet)
    (dir : FS) : FS :=
  pruneCorrupted hash pkg set (pruneLeftovers pkg set dir)

/-- The objects to fetch: those classified Missing, then those
classified Incomplete, both against the pruned directory (the two
`filter_objects` calls are evaluated before the fetch loop runs). -/
def downloadFetchList (hash : Bytes → String) (pkg : UpdatePackage) (set : InstallationSet)
    (dir : FS) : List UhObject :=
  pkg.filterObjects hash dir set .missing ++ pkg.filterObjects hash dir set .incomplete

/-- The fetch loop: `download_object` for each object in turn, the first
client error aborting the transition. -/
def fetchObjects (server : DownloadRequest → HttpResult) (objs : List UhObject) (dir : FS) :
    Except ClientError FS :=
  match objs with
  | [] => .ok dir
  | o :: rest =>
    match Api.downloadObject server dir o.sha256sum with
    | .error e => .error e
    | .ok dir2 => fetchObjects server rest dir2

/-- `State<Download>::handle`: prune leftovers, prune corrupted files,
fetch every missing or incomplete object, then reclassify every object
of the inactive bank: if all are Ready move to `Install{pkg}`, else fail
with `ObjectsNotReady` (`bail!("Not all objects are ready for use")`).
The resulting directory is returned alongside the next state. -/
def downloadStateHandle (hash : Bytes → String) (server : DownloadRequest → HttpResult)
    (pkg : UpdatePackage) (set : InstallationSet) (dir : FS) :
    Except TransitionError (NState × FS) :=
  let dir2 := downloadPruned hash pkg set dir
  match fetchObjects server (downloadFetchList hash pkg set dir2) dir2 with
  | .error e => .error (.client e)
  | .ok dir3 =>
    if (pkg.objects set).all (fun o => decide (objectStatus hash dir3 o = .ready)) then
      .ok (.install pkg, dir3)
    else
      .error .objectsNotReady

/-! ## Runtime settings

Modelled from the spec: the persisted runtime-settings record (§3; the
`runtime_settings.rs` source is absent from the tree).  Times and
durations are in whole seconds.  Persistence (atomic file replace) is
not modelled; the setters below are the store's mutators, named after
the methods the state sources call. -/

structure RuntimeSettings where
  last : Option Int := none
  extraInterval : Option Int := none
  retries : Nat := 0
  pollingNow : Bool := false
  appliedPackageUid : Option String := none
  upgradeToInstallation : Option InstallationSet := none
deriving DecidableEq, Repr

/-- Modelled from the spec: `force_poll` raises the force-poll flag
`polling.now`. -/
def RuntimeSettings.forcePoll (rs : RuntimeSettings) : RuntimeSettings :=
  { rs with pollingNow := true }

/-- Modelled from the spec: `is_polling_forced` reads the force-poll
flag. -/
def RuntimeSettings.isPollingForced (rs : RuntimeSettings) : Bool :=
  rs.pollingNow

/-- Modelled from the spec: `set_applied_package_uid` records the
installed package's uid. -/
def RuntimeSettings.setAppliedPackageUid (rs : RuntimeSettings) (uid : String) :
    RuntimeSettings :=
  { rs with appliedPackageUid := some uid }

/-- Modelled from the spec: `set_last_polling` records the last poll
time. -/
def RuntimeSettings.setLastPolling (rs : RuntimeSettings) (t : Int) : RuntimeSettings :=
  { rs with last := some t }

/-- Modelled from the spec: `set_polling_extra_interval` records the
server-requested extra poll interval. -/
def RuntimeSettings.setPollingExtraInterval (rs : RuntimeSettings) (d : Int) :
    RuntimeSettings :=
  { rs with extraInterval := some d }

/-- Modelled from the spec: `clear_retries` resets the probe retry
counter. -/
def RuntimeSettings.clearRetries (rs : RuntimeSettings) : RuntimeSettings :=
  { rs with retries := 0 }

/-- Modelled from the spec: `inc_retries` bumps the probe retry
counter. -/
def RuntimeSettings.incRetries (rs : RuntimeSettings) : RuntimeSettings :=
  { rs with retries := rs.retries + 1 }

namespace Legacy

/-! ## The legacy (synchronous) state machine (`src/states/`) -/

/-- The `StateMachine` enum of the legacy variant (`src/states/mod.rs`
lines 52-61), with payloads where a claim observes them.  (`Idle` is the
legacy name of the later `EntryPoint`.) -/
inductive LState
  | park
  | idle
  | poll
  | probe (serverAddress : Option String)
  | download (pkg : UpdatePackage)
  | install (pkg : UpdatePackage)
  | reboot (pkg : UpdatePackage)
deriving DecidableEq, Repr

/-! ## Install

From `src/states/install.rs`, lines 50-71 (`State<Install>::handle`). -/

/-- `State<Install>::handle`: force an immediate poll after the coming
reboot (`runtime_settings.force_poll()`), record the applied package uid
(`set_applied_package_uid`), stop the memory logger (not modelled), and
move to `Reboot{update_package}`. -/
def installHandle (pkg : UpdatePackage) (rs : RuntimeSettings) : LState × RuntimeSettings :=
  let rs1 := rs.forcePoll
  let rs2 := rs1.setAppliedPackageUid pkg.packageUid
  (.reboot pkg, rs2)

/-! ## Poll

From `src/states/poll.rs`, lines 24-68 (`State<Poll>::handle`). -/

/-- How the legacy Poll reaches Probe: at once, or after sleeping the
full `polling.interval` on a spawned timer (the
`Condvar`/`thread::sleep` tail of the handler). -/
inductive PollStep
  | immediate
  | sleepFullInterval (seconds : Int)
deriving DecidableEq, Repr

/-- `State<Poll>::handle`.  `now` is `Utc::now()` in seconds, `offset`
the random first-run spread drawn from `[0, interval)`, `interval` the
configured `polling.interval`.  In order: a forced poll moves to Probe
at once; an unset last-poll is synthesized as `now + offset`; a
last-poll in the future moves to Probe at once; a last-poll more than
`extra_interval` (default 0 — the configured interval is not consulted)
in the past moves to Probe at once; otherwise the handler sleeps the
full interval and then moves to Probe. -/
def pollHandle (now offset interval : Int) (rs : RuntimeSettings) : LState × PollStep :=
  if rs.isPollingForced then (.probe none, .immediate)
  else
    let lastPoll := rs.last.getD (now + offset)
    if lastPoll > now then (.probe none, .immediate)
    else if lastPoll + rs.extraInterval.getD 0 < now then (.probe none, .immediate)
    else (.probe none, .sleepFullInterval interval)

/-! ## Probe

From `src/states/probe.rs`, lines 36-105 (`State<Probe>::handle`).  The
retry loop around the network call is left out: `resp` is the response
the loop eventually broke on, after which `clear_retries()` has run.
`compatible` is the outcome of `u.compatible_with(&firmware)`. -/

/-- The cloud client's probe result (`client::ProbeResponse`). -/
inductive ProbeResponse
  | noUpdate
  | update (pkg : UpdatePackage)
  | extraPoll (seconds : Int)
deriving DecidableEq, Repr

/-- `State<Probe>::handle` after the retry loop: an `ExtraPoll(s)`
response stores the extra interval and moves to Poll (the last-poll
time is not touched); `NoUpdate` stores the last-poll time and moves to
Idle; `Update` first checks hardware compatibility, stores the
last-poll time, and moves to Idle when the package uid is already the
applied one, else to `Download{pkg}`. -/
def probeHandle (now : Int) (resp : ProbeResponse) (compatible : Bool)
    (rs : RuntimeSettings) : Except TransitionError (LState × RuntimeSettings) :=
  let rs1 := rs.clearRetries
  let rs2 :=
    match resp with
    | .extraPoll s => rs1.setPollingExtraInterval s
    | _ => rs1
  match resp with
  | .noUpdate => .ok (.idle, rs2.setLastPolling now)
  | .extraPoll _ => .ok (.poll, rs2)
  | .update u =>
    if compatible then
      let rs3 := rs2.setLastPolling now
      if rs3.appliedPackageUid = some u.packageUid then .ok (.idle, rs3)
      else .ok (.download u, rs3)
    else .error .incompatibleHardware

end Legacy

/-! ## Concrete instances used by the theorems below -/

/-- A ten-byte object content, standing for the test payload
`"1234567890"`. -/
def full10 : Bytes := List.range 10

/-- The content address of the test object. -/
def sha7 : String := "c775e7b7"

/-- The test object: sha `sha7`, expected size 10. -/
def obj7 : UhObject := { sha256sum := sha7, size := 10 }

/-- A download directory holding the first 5 of the 10 expected bytes of
the test object. -/
def partFS : FS := [(sha7, full10.take 5)]

/-- What resuming leaves in the file: the 5 existing bytes with the
6 re-served bytes (offsets 4-9) appended. -/
def resumedContent : Bytes := full10.take 5 ++ full10.drop 4

/-- A package with no objects, for exercising the Install transition. -/
def pkg0 : UpdatePackage := { packageUid := "pkg-uid-1", objects0 := [], objects1 := [] }

/-- Runtime settings with a last poll 30 s in the past of the probe
below and no extra interval. -/
def c4Rs : RuntimeSettings := { last := some 70 }

/-- Runtime settings with a last poll well in the past. -/
def c4WRs : RuntimeSettings := { last := some 0 }

/-- A hash function under which `wObj`'s one-byte file is Ready. -/
def wHash : Bytes → String := fun _ => "s1"

/-- A one-byte object. -/
def wObj : UhObject := { sha256sum := "s1", size := 1 }

/-- A package holding just `wObj` on both banks. -/
def wPkg : UpdatePackage := { packageUid := "p5", objects0 := [wObj], objects1 := [wObj] }

/-- A directory where `wObj` is already Ready. -/
def wDir : FS := [("s1", [7])]

/-- A server that is never reached (everything is Ready already). -/
def wServer : DownloadRequest → HttpResult := fun _ => .transportError

/-- The legacy range computation underflows on an empty partial file:
`len() - 1` on a `u64` of value 0 panics, while the actor-based variant
clamps (`legacyRangeStart` is not part of any claim's statement). -/
theorem legacyRangeStart_underflows_on_empty : legacyRangeStart 0 = none := rfl

/-- C1: an external Probe request should be accepted exactly in the
preemptible states (Park, EntryPoint, Poll, Probe, PrepareDownload,
Download, DirectDownload).  The dispatcher of
`updatehub/src/states/mod.rs` lines 232-234 instead answers through
`is_handling_download`, so a Probe in Park is rejected with
`InvalidState("park")` even though Park is preemptible, and the accept
set collapses to exactly the Download state. -/
theorem probe_request_rejected_in_park :
    (handleProbeRequest .park none).1 = .invalidState "park" ∧
    (handleProbeRequest .park none).2 = .park ∧
    NState.innerIsPreemptiveState .park = true ∧
    ∀ s : NState, ((handleProbeRequest s none).1 = .requestAccepted "probe" ↔
      s.innerIsHandlingDownload = true) := by
  refine ⟨rfl, rfl, rfl, fun s => ?_⟩
  cases s <;>
    simp [handleProbeRequest, NState.isPreemptiveState, NState.innerIsHandlingDownload,
      NState.name]

/-- C2 counterexample: running the legacy Install transition
(`src/states/install.rs` lines 50-71) from default runtime settings
succeeds into Reboot, yet `upgrade-to-installation` is still unset —
the claim requires it to equal the inactive installation set (0 or 1). -/
theorem install_leaves_upgrade_marker_unset :
    Legacy.installHandle pkg0 {} =
      (.reboot pkg0, { pollingNow := true, appliedPackageUid := some "pkg-uid-1" }) ∧
    ({ pollingNow := true, appliedPackageUid := some "pkg-uid-1" } :
      RuntimeSettings).upgradeToInstallation = none :=
  ⟨rfl, rfl⟩

/-- C2 amended: a successful Install records
`applied-package-uid = pkg.package_uid` (and raises the force-poll
flag) before moving to Reboot; it leaves `upgrade-to-installation`
untouched. -/
theorem install_success_records_applied_uid_only (pkg : UpdatePackage)
    (rs : RuntimeSettings) :
    Legacy.installHandle pkg rs =
      (.reboot pkg, { rs with pollingNow := true, appliedPackageUid := some pkg.packageUid }) ∧
    (Legacy.installHandle pkg rs).2.upgradeToInstallation = rs.upgradeToInstallation :=
  ⟨rfl, rfl⟩

/-- C3 counterexample: starting Install with the force-poll flag down,
the machine enters Reboot with `runtime.polling.now` raised — Install
calls `force_poll()` on its success path, the only path into Reboot. -/
theorem reboot_entered_with_forced_poll :
    ({} : RuntimeSettings).pollingNow = false ∧
    (Legacy.installHandle pkg0 {}).1 = .reboot pkg0 ∧
    (Legacy.installHandle pkg0 {}).2.pollingNow = true :=
  ⟨rfl, rfl, rfl⟩

/-- C3 amended: whenever the machine enters Reboot (which only Install's
success produces), the force-poll flag `runtime.polling.now` is true. -/
theorem install_forces_poll_at_reboot_entry (pkg : UpdatePackage) (rs : RuntimeSettings) :
    (Legacy.installHandle pkg rs).1 = .reboot pkg ∧
    (Legacy.installHandle pkg rs).2.pollingNow = true :=
  ⟨rfl, rfl⟩

/-- C4 counterexample: with `last = 70`, `now = 100`,
`polling.interval = 60` and no extra interval, the claim's condition
`last + max(interval, extra) ≤ now` fails (130 > 100), so the claim
prescribes waiting the remaining 30 s; the legacy Poll handler
(`src/states/poll.rs` lines 24-68) instead moves to Probe at once,
because it compares against the extra interval alone. -/
theorem poll_ignores_configured_interval :
    Legacy.pollHandle 100 0 60 c4Rs = (.probe none, .immediate) ∧
    ¬ ((70 : Int) + max 60 (0 : Int) ≤ 100) := by
  exact ⟨rfl, by decide⟩

/-- C4 amended: when the force-poll flag is unset and a recorded
last-poll time is not in the future, Poll moves to Probe immediately
exactly when `last + extra_interval (default 0) < now`; otherwise it
sleeps the full `polling.interval` (not the remaining time) before
moving to Probe. -/
theorem poll_immediate_iff_extra_elapsed (now offset interval l : Int)
    (rs : RuntimeSettings) (hforce : rs.pollingNow = false) (hlast : rs.last = some l)
    (hle : l ≤ now) :
    (Legacy.pollHandle now offset interval rs = (.probe none, .immediate) ↔
      l + rs.extraInterval.getD 0 < now) ∧
    (¬ l + rs.extraInterval.getD 0 < now →
      Legacy.pollHandle now offset interval rs = (.probe none, .sleepFullInterval interval)) := by
  have hnotgt : ¬ (l > now) := not_lt.mpr hle
  simp only [Legacy.pollHandle, RuntimeSettings.isPollingForced, hforce, hlast,
    Bool.false_eq_true, if_false, Option.getD_some]
  rw [if_neg hnotgt]
  by_cases hc : l + rs.extraInterval.getD 0 < now
  · rw [if_pos hc]
    exact ⟨iff_of_true rfl hc, fun hn => absurd hc hn⟩
  · rw [if_neg hc]
    refine ⟨⟨fun he => absurd he (by simp), fun hcc => absurd hcc hc⟩, fun _ => rfl⟩

/-- C4 witness: all hypotheses of `poll_immediate_iff_extra_elapsed`
hold at `now = 10`, `last = 0`, `interval = 60`, and the handler indeed
moves to Probe immediately there. -/
theorem poll_immediate_iff_extra_elapsed_witness :
    c4WRs.pollingNow = false ∧ c4WRs.last = some 0 ∧ ((0 : Int) ≤ 10) ∧
    Legacy.pollHandle 10 0 60 c4WRs = (.probe none, .immediate) :=
  ⟨rfl, rfl, by decide,
    (poll_immediate_iff_extra_elapsed 10 0 60 0 c4WRs rfl rfl (by decide)).1.mpr (by decide)⟩

/-- C5: once the fetch phase has succeeded, the Download transition
moves to Install exactly when every object of the inactive bank is
Ready in the resulting directory, and otherwise fails with
`ObjectsNotReady`; in particular a successful Download implies every
object is Ready. -/
theorem download_ok_iff_all_ready (hash : Bytes → String)
    (server : DownloadRequest → HttpResult) (pkg : UpdatePackage) (set : InstallationSet)
    (dir dir3 : FS)
    (h : fetchObjects server
      (downloadFetchList hash pkg set (downloadPruned hash pkg set dir))
      (downloadPruned hash pkg set dir) = .ok dir3) :
    (downloadStateHandle hash server pkg set dir = .ok (.install pkg, dir3) ↔
      ∀ o ∈ pkg.objects set, objectStatus hash dir3 o = .ready) ∧
    ((¬ ∀ o ∈ pkg.objects set, objectStatus hash dir3 o = .ready) →
      downloadStateHandle hash server pkg set dir = .error .objectsNotReady) := by
  have hall :
      (((pkg.objects set).all fun o => decide (objectStatus hash dir3 o = .ready)) = true) ↔
        ∀ o ∈ pkg.objects set, objectStatus hash dir3 o = .ready := by
    simp [List.all_eq_true]
  have hred : downloadStateHandle hash server pkg set dir =
      if ((pkg.objects set).all fun o => decide (objectStatus hash dir3 o = .ready)) = true then
        .ok (.install pkg, dir3)
      else .error .objectsNotReady := by
    simp only [downloadStateHandle]
    rw [h]
  rw [hred]
  by_cases hr : ∀ o ∈ pkg.objects set, objectStatus hash dir3 o = .ready
  · rw [if_pos (hall.mpr hr)]
    exact ⟨iff_of_true rfl hr, fun hn => absurd hr hn⟩
  · rw [if_neg (fun hc => hr (hall.mp hc))]
    refine ⟨⟨fun he => absurd he (by simp), fun hx => absurd hx hr⟩, fun _ => rfl⟩

/-- C5 witness: with `wObj` already Ready in `wDir`, the fetch list is
empty, the fetch phase trivially succeeds, and Download moves to
Install. -/
theorem download_ok_iff_all_ready_witness :
    fetchObjects wServer
      (downloadFetchList wHash wPkg 0 (downloadPruned wHash wPkg 0 wDir))
      (downloadPruned wHash wPkg 0 wDir) = .ok wDir ∧
    downloadStateHandle wHash wServer wPkg 0 wDir = .ok (.install wPkg, wDir) :=
  ⟨rfl, (download_ok_iff_all_ready wHash wServer wPkg 0 wDir wDir rfl).1.mpr (by decide)⟩

/-- C6 counterexample: an `ExtraPoll(3600)` probe response at `now = 5`
(`src/states/probe.rs` lines 36-105) stores the extra interval and moves
to Poll, but `runtime.last` is still unset — the claim requires
`runtime.last = now`. -/
theorem probe_extra_poll_leaves_last_unset :
    Legacy.probeHandle 5 (.extraPoll 3600) true {} =
      .ok (.poll, { extraInterval := some 3600 }) ∧
    ({ extraInterval := some 3600 } : RuntimeSettings).last = none :=
  ⟨rfl, rfl⟩

/-- C6 amended: a 200 response with `add-extra-poll: N` sets
`runtime.extra_interval = N` seconds (and clears the retry counter) and
moves to Poll; `runtime.last` is not modified. -/
theorem probe_extra_poll_sets_interval_only (now s : Int) (compatible : Bool)
    (rs : RuntimeSettings) :
    Legacy.probeHandle now (.extraPoll s) compatible rs =
      .ok (.poll, { rs with retries := 0, extraInterval := some s }) ∧
    ({ rs with retries := 0, extraInterval := some s } : RuntimeSettings).last = rs.last :=
  ⟨rfl, rfl⟩

/-- C7: resuming the 5-of-10-byte partial file, `download_object`
(`updatehub/src/client/mod.rs` lines 151-185) sends `Range: bytes=4-`;
the server serves the 6 bytes from offset 4, the client appends them to
the append-mode file, and the result is an 11-byte file classified
Corrupted for every hash function — not the Ready file of the claim. -/
theorem download_resume_appends_duplicate :
    (buildDownloadRequest partFS sha7).rangeStart = some 4 ∧
    rangeHeader 4 = "bytes=4-" ∧
    (full10.drop 4).length = 6 ∧
    Api.downloadObject (mockRangeServer full10) partFS sha7 = .ok [(sha7, resumedContent)] ∧
    resumedContent.length = 11 ∧
    ∀ hash : Bytes → String, objectStatus hash [(sha7, resumedContent)] obj7 = .corrupted := by
  refine ⟨by decide, by decide, by decide, by rfl, by decide, fun hash => rfl⟩

/-- C8: when a partial file for the object exists, the range offset the
client attaches is the file length minus one, clamped at zero
(`u64::saturating_sub`), so the header is well defined for an empty
file too. -/
theorem download_range_offset_clamped (dir : FS) (object : String) (c : Bytes)
    (h : dir.lookup object = some c) :
    (buildDownloadRequest dir object).rangeStart = some (c.length - 1) ∧
    (c.length = 0 → (buildDownloadRequest dir object).rangeStart = some 0) := by
  constructor
  · simp [buildDownloadRequest, h]
  · intro h0
    simp [buildDownloadRequest, h, h0]

/-- C8 witness: an existing empty partial file produces the range
offset 0. -/
theorem download_range_offset_clamped_witness :
    FS.lookup [("o", ([] : Bytes))] "o" = some [] ∧
    (buildDownloadRequest [("o", ([] : Bytes))] "o").rangeStart = some 0 :=
  ⟨rfl, (download_range_offset_clamped [("o", [])] "o" [] rfl).2 rfl⟩

/-- C9: the progress-reporting wrapper returns exactly the wrapped
transition's result, whatever the outcomes of the enter, leave and
error report POSTs (each failed POST only logs a warning). -/
theorem report_failure_never_masks_result (report : ReportFn)
    (enterState leaveState : String)
    (res : Except TransitionError (NState × StepTransition)) (memoryLog : String) :
    (handleAndReportProgress report enterState leaveState res memoryLog).1 = res := by
  cases res <;> rfl

/-- C10: when the remote-install URL answers with a non-2xx status,
DirectDownload writes nothing and still moves to
`PrepareLocalInstall{fetched_pkg}` with an Immediate step, leaving the
directory as it was; only a transport-level failure is an error. -/
theorem direct_download_ignores_bad_status (r : HttpResponse) (dir : FS)
    (h : statusIsSuccess r.status = false) :
    directDownloadHandle (.response r) dir =
      .ok ((.prepareLocalInstall "fetched_pkg", .immediate), dir) ∧
    ∀ dir2 : FS, directDownloadHandle .transportError dir2 = .error .invalidRequest := by
  refine ⟨?_, fun dir2 => rfl⟩
  simp [directDownloadHandle, h]

/-- C10 witness: a 404 answer leaves a stale `fetched_pkg` in place and
still moves to PrepareLocalInstall. -/
theorem direct_download_ignores_bad_status_witness :
    statusIsSuccess 404 = false ∧
    directDownloadHandle (.response { status := 404, body := [1, 2, 3] })
        [("fetched_pkg", [9])] =
      .ok ((.prepareLocalInstall "fetched_pkg", .immediate), [("fetched_pkg", [9])]) :=
  ⟨rfl, (direct_download_ignores_bad_status { status := 404, body := [1, 2, 3] }
    [("fetched_pkg", [9])] rfl).1⟩

end UpdateHub
